import Mathlib

/-!
Verification of the CLibSSH2 shim (src/CLibSSH2/shim.h) and of the
session/SFTP core design it exposes.

The shim is a header of static inline C functions, each forwarding to an
external libssh2 function. We embed each wrapper as a Lean function that is
parametric in the underlying library function (an oracle argument), so that
"pure pass-through" becomes the provable statement that the wrapper applies
the oracle to its own arguments and returns the result unchanged.

C pointers are modelled as opaque naturals; a C string is NULL or the list
of its bytes before the terminating NUL; C int is Int; the cast
(unsigned int)x on a size_t is reduction modulo 2 ^ 32.
-/

namespace Shim

/-- A C string argument: NULL, or the list of bytes before the NUL. -/
abbrev CStr := Option (List Nat)

/-- strlen of a non-NULL C string: the number of bytes before the NUL. -/
def strlen (s : List Nat) : Nat := s.length

/-- Opaque model of a LIBSSH2_SESSION pointer. -/
abbrev SessionPtr := Nat

/-- Opaque model of a LIBSSH2_SFTP pointer. -/
abbrev SftpPtr := Nat

/-- Opaque model of a LIBSSH2_SFTP_HANDLE pointer. -/
abbrev SftpHandlePtr := Nat

/-- Opaque model of an int pointer (out-parameter forwarded untouched). -/
abbrev IntPtr := Nat

/-- Opaque model of a char buffer pointer (forwarded untouched). -/
abbrev CharPtr := Nat

/-- Opaque model of a LIBSSH2_SFTP_ATTRIBUTES pointer (forwarded untouched). -/
abbrev AttrsPtr := Nat

/-- Embedding of ssh2_session_init: forwards to libssh2_session_init. -/
def ssh2_session_init (lib : Unit → SessionPtr) : SessionPtr :=
  lib ()

/-- Embedding of ssh2_session_disconnect: forwards both arguments. -/
def ssh2_session_disconnect (lib : SessionPtr → CStr → Int)
    (session : SessionPtr) (description : CStr) : Int :=
  lib session description

/-- Embedding of ssh2_session_last_errno: forwards the session pointer. -/
def ssh2_session_last_errno (lib : SessionPtr → Int) (session : SessionPtr) : Int :=
  lib session

/-- Embedding of ssh2_session_block_directions: forwards the session pointer. -/
def ssh2_session_block_directions (lib : SessionPtr → Int) (session : SessionPtr) : Int :=
  lib session

/-- Embedding of ssh2_session_flag: forwards all three arguments. -/
def ssh2_session_flag (lib : SessionPtr → Int → Int → Int)
    (session : SessionPtr) (flag : Int) (value : Int) : Int :=
  lib session flag value

/-- Embedding of ssh2_session_set_timeout: forwards both arguments (void return). -/
def ssh2_session_set_timeout (lib : SessionPtr → Int → Unit)
    (session : SessionPtr) (timeout : Int) : Unit :=
  lib session timeout

/-- Embedding of ssh2_keepalive_config: forwards all three arguments (void return). -/
def ssh2_keepalive_config (lib : SessionPtr → Int → Nat → Unit)
    (session : SessionPtr) (wantReply : Int) (interval : Nat) : Unit :=
  lib session wantReply interval

/-- Embedding of ssh2_keepalive_send: forwards the session and the out-pointer. -/
def ssh2_keepalive_send (lib : SessionPtr → IntPtr → Int)
    (session : SessionPtr) (secondsToNext : IntPtr) : Int :=
  lib session secondsToNext

/-- Constant SSH2_METHOD_KEX from the shim header. -/
def SSH2_METHOD_KEX : Int := 0

/-- Constant SSH2_METHOD_HOSTKEY from the shim header. -/
def SSH2_METHOD_HOSTKEY : Int := 1

/-- Constant SSH2_METHOD_CRYPT_CS from the shim header. -/
def SSH2_METHOD_CRYPT_CS : Int := 2

/-- Constant SSH2_METHOD_CRYPT_SC from the shim header. -/
def SSH2_METHOD_CRYPT_SC : Int := 3

/-- Constant SSH2_METHOD_MAC_CS from the shim header. -/
def SSH2_METHOD_MAC_CS : Int := 4

/-- Constant SSH2_METHOD_MAC_SC from the shim header. -/
def SSH2_METHOD_MAC_SC : Int := 5

/-- Constant SSH2_METHOD_COMP_CS from the shim header. -/
def SSH2_METHOD_COMP_CS : Int := 6

/-- Constant SSH2_METHOD_COMP_SC from the shim header. -/
def SSH2_METHOD_COMP_SC : Int := 7

/-- The eight method-preference constants in the order they are declared. -/
def sshMethodConstants : List Int :=
  [SSH2_METHOD_KEX, SSH2_METHOD_HOSTKEY, SSH2_METHOD_CRYPT_CS, SSH2_METHOD_CRYPT_SC,
   SSH2_METHOD_MAC_CS, SSH2_METHOD_MAC_SC, SSH2_METHOD_COMP_CS, SSH2_METHOD_COMP_SC]

/-- Embedding of ssh2_session_method_pref: forwards all three arguments. -/
def ssh2_session_method_pref (lib : SessionPtr → Int → CStr → Int)
    (session : SessionPtr) (methodType : Int) (prefs : CStr) : Int :=
  lib session methodType prefs

/-- Embedding of ssh2_userauth_publickey_fromfile: forwards all five arguments. -/
def ssh2_userauth_publickey_fromfile
    (lib : SessionPtr → CStr → CStr → CStr → CStr → Int)
    (session : SessionPtr) (username publickey privatekey passphrase : CStr) : Int :=
  lib session username publickey privatekey passphrase

/-- A record of the one call ssh2_userauth_password can make to the external
function libssh2_userauth_password_ex: the forwarded arguments (the session
pointer elided; the last field is the password-change callback pointer). -/
inductive LibCall where
  | passwordEx (username : List Nat) (usernameLen : Nat)
      (password : List Nat) (passwordLen : Nat) (passwdChangeCb : Option Nat)
  deriving DecidableEq

/-- Embedding of ssh2_userauth_password. Result: the returned int, paired with
the list of calls made to the underlying library (empty when the NULL guard
fires). The lengths carry the C cast (unsigned int)strlen, i.e. mod 2 ^ 32,
and the password-change callback forwarded is NULL. -/
def ssh2_userauth_password (lib : LibCall → Int)
    (username password : CStr) : Int × List LibCall :=
  match username with
  | Option.none => (-1, [])
  | Option.some u =>
    match password with
    | Option.none => (-1, [])
    | Option.some p =>
      let c := LibCall.passwordEx u (strlen u % 2 ^ 32) p (strlen p % 2 ^ 32) Option.none
      (lib c, [c])

/-- Embedding of ssh2_sftp_opendir: forwards both arguments. -/
def ssh2_sftp_opendir (lib : SftpPtr → CStr → SftpHandlePtr)
    (sftp : SftpPtr) (path : CStr) : SftpHandlePtr :=
  lib sftp path

/-- Embedding of ssh2_sftp_close: forwards the handle. -/
def ssh2_sftp_close (lib : SftpHandlePtr → Int) (handle : SftpHandlePtr) : Int :=
  lib handle

/-- Embedding of ssh2_sftp_closedir: forwards the handle. -/
def ssh2_sftp_closedir (lib : SftpHandlePtr → Int) (handle : SftpHandlePtr) : Int :=
  lib handle

/-- Embedding of ssh2_sftp_readdir: forwards all four arguments. -/
def ssh2_sftp_readdir (lib : SftpHandlePtr → CharPtr → Nat → AttrsPtr → Int)
    (handle : SftpHandlePtr) (buffer : CharPtr) (bufferMaxlen : Nat)
    (attrs : AttrsPtr) : Int :=
  lib handle buffer bufferMaxlen attrs

/-- Embedding of ssh2_sftp_stat: forwards all three arguments. -/
def ssh2_sftp_stat (lib : SftpPtr → CStr → AttrsPtr → Int)
    (sftp : SftpPtr) (path : CStr) (attrs : AttrsPtr) : Int :=
  lib sftp path attrs

/-- Embedding of ssh2_sftp_lstat: forwards all three arguments. -/
def ssh2_sftp_lstat (lib : SftpPtr → CStr → AttrsPtr → Int)
    (sftp : SftpPtr) (path : CStr) (attrs : AttrsPtr) : Int :=
  lib sftp path attrs

/-- Embedding of ssh2_sftp_setstat: forwards all three arguments. -/
def ssh2_sftp_setstat (lib : SftpPtr → CStr → AttrsPtr → Int)
    (sftp : SftpPtr) (path : CStr) (attrs : AttrsPtr) : Int :=
  lib sftp path attrs

/-- Embedding of ssh2_sftp_open: forwards all four arguments. -/
def ssh2_sftp_open (lib : SftpPtr → CStr → Nat → Int → SftpHandlePtr)
    (sftp : SftpPtr) (filename : CStr) (flags : Nat) (mode : Int) : SftpHandlePtr :=
  lib sftp filename flags mode

/-- Embedding of ssh2_sftp_mkdir: forwards all three arguments. -/
def ssh2_sftp_mkdir (lib : SftpPtr → CStr → Int → Int)
    (sftp : SftpPtr) (path : CStr) (mode : Int) : Int :=
  lib sftp path mode

/-- Embedding of ssh2_sftp_rmdir: forwards both arguments. -/
def ssh2_sftp_rmdir (lib : SftpPtr → CStr → Int) (sftp : SftpPtr) (path : CStr) : Int :=
  lib sftp path

/-- Embedding of ssh2_sftp_unlink: forwards both arguments. -/
def ssh2_sftp_unlink (lib : SftpPtr → CStr → Int) (sftp : SftpPtr) (filename : CStr) : Int :=
  lib sftp filename

/-- Embedding of ssh2_sftp_rename: forwards all three arguments. -/
def ssh2_sftp_rename (lib : SftpPtr → CStr → CStr → Int)
    (sftp : SftpPtr) (sourcefile destfile : CStr) : Int :=
  lib sftp sourcefile destfile

/-- Embedding of ssh2_sftp_readlink: forwards all four arguments. -/
def ssh2_sftp_readlink (lib : SftpPtr → CStr → CharPtr → Nat → Int)
    (sftp : SftpPtr) (path : CStr) (target : CharPtr) (maxlen : Nat) : Int :=
  lib sftp path target maxlen

end Shim

/-- The pass-through property the spec claims for every wrapper, stated for
ssh2_userauth_password: on every input it makes exactly one call to the
underlying library and returns that call's value unchanged. -/
def userauthPasswordPassesThrough : Prop :=
  ∀ (lib : Shim.LibCall → Int) (username password : Shim.CStr),
    ∃ c, Shim.ssh2_userauth_password lib username password = (lib c, [c])

namespace SpecCore

/-- Modelled from the spec: the handshake states of the Session State Machine
(spec section 4.2); the session core itself is not under src/, the shim only
forwards opaque session pointers to the external library. -/
inductive HandshakeState where
  | unconnected
  | keyExchange
  | authenticating
  | ready
  | disconnected
  | failed
  deriving DecidableEq

/-- Modelled from the spec: the blocked-direction flag held by a Session,
one of none/read/write (spec sections 3 and 4.5); not under src/. -/
inductive BlockedDirection where
  | none
  | read
  | write
  deriving DecidableEq

/-- Modelled from the spec: the Session of the session core (spec section 3):
handshake state, last-error code, blocked-direction flag, and the
administrative timeout/keepalive settings; not under src/. -/
structure Session where
  state : HandshakeState
  lastError : Int
  blockedDir : BlockedDirection
  timeout : Int
  keepaliveWantReply : Bool
  keepaliveInterval : Nat
  deriving DecidableEq

/-- Modelled from the spec: the blocked-direction query of the Retry/Would-Block
Coordinator (spec section 4.5), returning the session's flag; not under src/. -/
def blocked_direction (s : Session) : BlockedDirection :=
  s.blockedDir

/-- Modelled from the spec: last_error (spec section 4.2) returns the stored
most-recent non-success code and is side-effect-free, so the session is
returned unchanged; not under src/. -/
def last_error (s : Session) : Int × Session :=
  (s.lastError, s)

/-- Modelled from the spec: recording an operation outcome on the session;
the last-error code is updated only by a non-success outcome (code 0 is
success), so last_error always reflects the most recent non-success outcome
(spec section 4.2); not under src/. -/
def recordOutcome (s : Session) (code : Int) : Session :=
  if code = 0 then s else { s with lastError := code }

/-- Modelled from the spec: session-level errors of the state machine;
not under src/. -/
inductive SessionError where
  | invalidState
  deriving DecidableEq

/-- Modelled from the spec: disconnect (spec section 4.2), the transition
Ready|Authenticating|KeyExchange to Disconnected, idempotent on an already
Disconnected session; not under src/. -/
def disconnect (s : Session) : Except SessionError Session :=
  match s.state with
  | HandshakeState.ready => Except.ok { s with state := HandshakeState.disconnected }
  | HandshakeState.authenticating => Except.ok { s with state := HandshakeState.disconnected }
  | HandshakeState.keyExchange => Except.ok { s with state := HandshakeState.disconnected }
  | HandshakeState.disconnected => Except.ok s
  | _ => Except.error SessionError.invalidState

/-- Modelled from the spec: configure_timeout (spec section 4.2),
administrative, no state transition; not under src/. -/
def configure_timeout (s : Session) (duration : Int) : Session :=
  { s with timeout := duration }

/-- Modelled from the spec: configure_keepalive (spec section 4.2),
administrative, no state transition; not under src/. -/
def configure_keepalive (s : Session) (wantReply : Bool) (interval : Nat) : Session :=
  { s with keepaliveWantReply := wantReply, keepaliveInterval := interval }

/-- Modelled from the spec: the Attributes record with a presence bitmask
(spec section 3); not under src/. -/
structure Attributes where
  flags : Nat
  size : Nat
  uid : Nat
  gid : Nat
  permissions : Nat
  atime : Nat
  mtime : Nat
  deriving DecidableEq

/-- Modelled from the spec: the type tag of an SftpHandle (spec section 3);
not under src/. -/
inductive HandleType where
  | file
  | directory
  deriving DecidableEq

/-- Modelled from the spec: SFTP-level errors relevant to handle operations
(spec section 7); not under src/. -/
inductive SftpError where
  | typeMismatch
  | staleHandle
  deriving DecidableEq

/-- Modelled from the spec: an SftpHandle (spec sections 3 and 9.3): a type
tag, a validity flag checked on every operation, and, for Directory handles,
the server-side cursor as the list of entries not yet returned; not under
src/. -/
structure SftpHandle where
  htype : HandleType
  isOpen : Bool
  entries : List (List Nat × Attributes)
  deriving DecidableEq

/-- Modelled from the spec: close, the File variant (spec section 4.4),
type-checked: it signals TypeMismatch on a Directory handle; not under src/. -/
def close (h : SftpHandle) : Except SftpError SftpHandle :=
  if h.isOpen = false then Except.error SftpError.staleHandle
  else
    match h.htype with
    | HandleType.file => Except.ok { h with isOpen := false }
    | HandleType.directory => Except.error SftpError.typeMismatch

/-- Modelled from the spec: closedir, the Directory variant (spec section 4.4),
type-checked: it signals TypeMismatch on a File handle; not under src/. -/
def closedir (h : SftpHandle) : Except SftpError SftpHandle :=
  if h.isOpen = false then Except.error SftpError.staleHandle
  else
    match h.htype with
    | HandleType.directory => Except.ok { h with isOpen := false }
    | HandleType.file => Except.error SftpError.typeMismatch

/-- Modelled from the spec: the result of one readdir call (spec section 4.4):
an entry, the EndOfDirectory end-of-sequence signal, or an error; not under
src/. -/
inductive ReaddirResult where
  | entry (name : List Nat) (attrs : Attributes)
  | endOfDirectory
  | error (e : SftpError)
  deriving DecidableEq

/-- Modelled from the spec: readdir (spec section 4.4): advances the handle's
cursor and returns the next entry, or EndOfDirectory once the cursor is
exhausted; not under src/. -/
def readdir (h : SftpHandle) : ReaddirResult × SftpHandle :=
  if h.isOpen = false then (ReaddirResult.error SftpError.staleHandle, h)
  else
    match h.htype with
    | HandleType.file => (ReaddirResult.error SftpError.typeMismatch, h)
    | HandleType.directory =>
      match h.entries with
      | [] => (ReaddirResult.endOfDirectory, h)
      | e :: rest => (ReaddirResult.entry e.1 e.2, { h with entries := rest })

/-- The result and handle state after the (n + 1)-th consecutive readdir call
on a handle. -/
def readdirIter (h : SftpHandle) : Nat → ReaddirResult × SftpHandle
  | 0 => readdir h
  | n + 1 => readdir (readdirIter h n).2

end SpecCore

/-- A concrete session in the Ready state, used to instantiate theorems. -/
def sampleSession : SpecCore.Session :=
  ⟨SpecCore.HandshakeState.ready, 0, SpecCore.BlockedDirection.none, 0, false, 0⟩

/-- A concrete session in the Disconnected state, used to instantiate theorems. -/
def sampleDisconnectedSession : SpecCore.Session :=
  ⟨SpecCore.HandshakeState.disconnected, 0, SpecCore.BlockedDirection.none, 0, false, 0⟩

/-- A concrete open directory handle with no remaining entries. -/
def sampleDirHandle : SpecCore.SftpHandle :=
  ⟨SpecCore.HandleType.directory, true, []⟩

/-- C1 counterexample: ssh2_userauth_password is not a pure pass-through.
With the underlying library modelled as the constant-zero oracle and a NULL
username, the wrapper returns -1 and makes no library call at all, so it does
not return the value of an underlying call on its arguments. -/
theorem userauth_password_not_pass_through : ¬ userauthPasswordPassesThrough := by
  intro hpt
  obtain ⟨c, hc⟩ := hpt (fun _ => 0) Option.none (Option.some [97])
  have h1 : (-1 : Int) = 0 := by
    have h2 := congrArg Prod.fst hc
    simp [Shim.ssh2_userauth_password] at h2
  exact absurd h1 (by decide)

/-- C1 (amended): every wrapper in the shim except ssh2_userauth_password
returns exactly the value of the underlying libssh2 function applied to the
same arguments, adding no logic; ssh2_userauth_password forwards to
libssh2_userauth_password_ex exactly when both username and password are
non-NULL, and returns -1 without invoking the library when either is NULL. -/
theorem shim_pass_through_amended :
    (∀ (lib : Unit → Shim.SessionPtr), Shim.ssh2_session_init lib = lib ()) ∧
    (∀ (lib : Shim.SessionPtr → Shim.CStr → Int) (s : Shim.SessionPtr) (d : Shim.CStr),
      Shim.ssh2_session_disconnect lib s d = lib s d) ∧
    (∀ (lib : Shim.SessionPtr → Int) (s : Shim.SessionPtr),
      Shim.ssh2_session_last_errno lib s = lib s) ∧
    (∀ (lib : Shim.SessionPtr → Int) (s : Shim.SessionPtr),
      Shim.ssh2_session_block_directions lib s = lib s) ∧
    (∀ (lib : Shim.SessionPtr → Int → Int → Int) (s : Shim.SessionPtr) (f v : Int),
      Shim.ssh2_session_flag lib s f v = lib s f v) ∧
    (∀ (lib : Shim.SessionPtr → Int → Unit) (s : Shim.SessionPtr) (t : Int),
      Shim.ssh2_session_set_timeout lib s t = lib s t) ∧
    (∀ (lib : Shim.SessionPtr → Int → Nat → Unit) (s : Shim.SessionPtr) (w : Int) (i : Nat),
      Shim.ssh2_keepalive_config lib s w i = lib s w i) ∧
    (∀ (lib : Shim.SessionPtr → Shim.IntPtr → Int) (s : Shim.SessionPtr) (p : Shim.IntPtr),
      Shim.ssh2_keepalive_send lib s p = lib s p) ∧
    (∀ (lib : Shim.SessionPtr → Int → Shim.CStr → Int) (s : Shim.SessionPtr) (m : Int)
      (prefs : Shim.CStr), Shim.ssh2_session_method_pref lib s m prefs = lib s m prefs) ∧
    (∀ (lib : Shim.SessionPtr → Shim.CStr → Shim.CStr → Shim.CStr → Shim.CStr → Int)
      (s : Shim.SessionPtr) (u pub priv pass : Shim.CStr),
      Shim.ssh2_userauth_publickey_fromfile lib s u pub priv pass = lib s u pub priv pass) ∧
    (∀ (lib : Shim.SftpPtr → Shim.CStr → Shim.SftpHandlePtr) (s : Shim.SftpPtr)
      (path : Shim.CStr), Shim.ssh2_sftp_opendir lib s path = lib s path) ∧
    (∀ (lib : Shim.SftpHandlePtr → Int) (h : Shim.SftpHandlePtr),
      Shim.ssh2_sftp_close lib h = lib h) ∧
    (∀ (lib : Shim.SftpHandlePtr → Int) (h : Shim.SftpHandlePtr),
      Shim.ssh2_sftp_closedir lib h = lib h) ∧
    (∀ (lib : Shim.SftpHandlePtr → Shim.CharPtr → Nat → Shim.AttrsPtr → Int)
      (h : Shim.SftpHandlePtr) (b : Shim.CharPtr) (n : Nat) (a : Shim.AttrsPtr),
      Shim.ssh2_sftp_readdir lib h b n a = lib h b n a) ∧
    (∀ (lib : Shim.SftpPtr → Shim.CStr → Shim.AttrsPtr → Int) (s : Shim.SftpPtr)
      (path : Shim.CStr) (a : Shim.AttrsPtr), Shim.ssh2_sftp_stat lib s path a = lib s path a) ∧
    (∀ (lib : Shim.SftpPtr → Shim.CStr → Shim.AttrsPtr → Int) (s : Shim.SftpPtr)
      (path : Shim.CStr) (a : Shim.AttrsPtr), Shim.ssh2_sftp_lstat lib s path a = lib s path a) ∧
    (∀ (lib : Shim.SftpPtr → Shim.CStr → Shim.AttrsPtr → Int) (s : Shim.SftpPtr)
      (path : Shim.CStr) (a : Shim.AttrsPtr), Shim.ssh2_sftp_setstat lib s path a = lib s path a) ∧
    (∀ (lib : Shim.SftpPtr → Shim.CStr → Nat → Int → Shim.SftpHandlePtr) (s : Shim.SftpPtr)
      (f : Shim.CStr) (fl : Nat) (m : Int), Shim.ssh2_sftp_open lib s f fl m = lib s f fl m) ∧
    (∀ (lib : Shim.SftpPtr → Shim.CStr → Int → Int) (s : Shim.SftpPtr) (p : Shim.CStr)
      (m : Int), Shim.ssh2_sftp_mkdir lib s p m = lib s p m) ∧
    (∀ (lib : Shim.SftpPtr → Shim.CStr → Int) (s : Shim.SftpPtr) (p : Shim.CStr),
      Shim.ssh2_sftp_rmdir lib s p = lib s p) ∧
    (∀ (lib : Shim.SftpPtr → Shim.CStr → Int) (s : Shim.SftpPtr) (f : Shim.CStr),
      Shim.ssh2_sftp_unlink lib s f = lib s f) ∧
    (∀ (lib : Shim.SftpPtr → Shim.CStr → Shim.CStr → Int) (s : Shim.SftpPtr)
      (a b : Shim.CStr), Shim.ssh2_sftp_rename lib s a b = lib s a b) ∧
    (∀ (lib : Shim.SftpPtr → Shim.CStr → Shim.CharPtr → Nat → Int) (s : Shim.SftpPtr)
      (p : Shim.CStr) (t : Shim.CharPtr) (m : Nat),
      Shim.ssh2_sftp_readlink lib s p t m = lib s p t m) ∧
    (∀ (lib : Shim.LibCall → Int) (password : Shim.CStr),
      Shim.ssh2_userauth_password lib Option.none password = (-1, [])) ∧
    (∀ (lib : Shim.LibCall → Int) (username : List Nat),
      Shim.ssh2_userauth_password lib (Option.some username) Option.none = (-1, [])) ∧
    (∀ (lib : Shim.LibCall → Int) (username password : List Nat),
      Shim.ssh2_userauth_password lib (Option.some username) (Option.some password) =
        (lib (Shim.LibCall.passwordEx username (Shim.strlen username % 2 ^ 32)
            password (Shim.strlen password % 2 ^ 32) Option.none),
         [Shim.LibCall.passwordEx username (Shim.strlen username % 2 ^ 32)
            password (Shim.strlen password % 2 ^ 32) Option.none])) := by
  repeat' apply And.intro
  all_goals intros
  all_goals rfl

/-- C2: ssh2_userauth_password returns -1 and makes no library call whenever
username or password is NULL; when both are non-NULL it makes exactly the one
call to libssh2_userauth_password_ex with the strlen-derived lengths (under
the C cast to unsigned int) and a NULL password-change callback, so strlen is
never applied to a NULL pointer. -/
theorem userauth_password_null_guard :
    (∀ (lib : Shim.LibCall → Int) (password : Shim.CStr),
      Shim.ssh2_userauth_password lib Option.none password = (-1, [])) ∧
    (∀ (lib : Shim.LibCall → Int) (username : List Nat),
      Shim.ssh2_userauth_password lib (Option.some username) Option.none = (-1, [])) ∧
    (∀ (lib : Shim.LibCall → Int) (username password : List Nat),
      Shim.ssh2_userauth_password lib (Option.some username) (Option.some password) =
        (lib (Shim.LibCall.passwordEx username (Shim.strlen username % 2 ^ 32)
            password (Shim.strlen password % 2 ^ 32) Option.none),
         [Shim.LibCall.passwordEx username (Shim.strlen username % 2 ^ 32)
            password (Shim.strlen password % 2 ^ 32) Option.none])) :=
  ⟨fun _ _ => rfl, fun _ _ => rfl, fun _ _ _ => rfl⟩

/-- C3: the eight method-preference constants are, in declaration order
(key exchange, host key, cipher c2s, cipher s2c, MAC c2s, MAC s2c,
compression c2s, compression s2c), the pairwise-distinct values 0 through 7,
and ssh2_session_method_pref forwards any of them (indeed any method-type
integer) unchanged to the underlying library. -/
theorem method_pref_constants :
    Shim.sshMethodConstants = [0, 1, 2, 3, 4, 5, 6, 7] ∧
    Shim.sshMethodConstants.Nodup ∧
    ∀ (lib : Shim.SessionPtr → Int → Shim.CStr → Int) (session : Shim.SessionPtr)
      (methodType : Int) (prefs : Shim.CStr),
      Shim.ssh2_session_method_pref lib session methodType prefs =
        lib session methodType prefs :=
  ⟨by decide, by decide, fun lib session methodType prefs => rfl⟩

/-- C4: for every session, the blocked-direction query returns exactly one of
the three values none, read, write: the result is one of them, and it occurs
exactly once among the three, so both directions are never reported at once. -/
theorem blocked_direction_exactly_one (s : SpecCore.Session) :
    (SpecCore.blocked_direction s = SpecCore.BlockedDirection.none ∨
     SpecCore.blocked_direction s = SpecCore.BlockedDirection.read ∨
     SpecCore.blocked_direction s = SpecCore.BlockedDirection.write) ∧
    List.count (SpecCore.blocked_direction s)
      [SpecCore.BlockedDirection.none, SpecCore.BlockedDirection.read,
       SpecCore.BlockedDirection.write] = 1 := by
  cases h : SpecCore.blocked_direction s <;> decide

/-- C5: handle close is type-checked: on every open handle, closedir on a File
handle signals TypeMismatch, close (the File variant) on a Directory handle
signals TypeMismatch, and each close variant succeeds exactly when the
handle's type tag matches it. -/
theorem close_type_checked (h : SpecCore.SftpHandle) (hopen : h.isOpen = true) :
    (h.htype = SpecCore.HandleType.file →
      SpecCore.closedir h = Except.error SpecCore.SftpError.typeMismatch) ∧
    (h.htype = SpecCore.HandleType.directory →
      SpecCore.close h = Except.error SpecCore.SftpError.typeMismatch) ∧
    ((∃ h2, SpecCore.close h = Except.ok h2) ↔ h.htype = SpecCore.HandleType.file) ∧
    ((∃ h2, SpecCore.closedir h = Except.ok h2) ↔ h.htype = SpecCore.HandleType.directory) := by
  rcases h with ⟨ht, op, es⟩
  cases op <;> cases ht <;> simp_all [SpecCore.close, SpecCore.closedir]

/-- C5 witness: closedir on a concrete open File handle signals TypeMismatch,
and close on a concrete open Directory handle signals TypeMismatch. -/
theorem close_type_checked_witness :
    SpecCore.closedir ⟨SpecCore.HandleType.file, true, []⟩ =
      Except.error SpecCore.SftpError.typeMismatch ∧
    SpecCore.close ⟨SpecCore.HandleType.directory, true, []⟩ =
      Except.error SpecCore.SftpError.typeMismatch :=
  ⟨(close_type_checked ⟨SpecCore.HandleType.file, true, []⟩ rfl).1 rfl,
   (close_type_checked ⟨SpecCore.HandleType.directory, true, []⟩ rfl).2.1 rfl⟩

/-- C6: last_error is side-effect-free: it leaves the session unchanged,
returns the stored last-error code, two consecutive calls agree, and after an
operation records a non-success outcome the returned code is that outcome. -/
theorem last_error_side_effect_free (s : SpecCore.Session) :
    (SpecCore.last_error s).2 = s ∧
    (SpecCore.last_error s).1 = s.lastError ∧
    (SpecCore.last_error (SpecCore.last_error s).2).1 = (SpecCore.last_error s).1 ∧
    ∀ code : Int, code ≠ 0 →
      (SpecCore.last_error (SpecCore.recordOutcome s code)).1 = code := by
  refine ⟨rfl, rfl, rfl, fun code hc => ?_⟩
  simp [SpecCore.last_error, SpecCore.recordOutcome, hc]

/-- C6 witness: on a concrete session, after recording the non-success
outcome -7, last_error returns -7. -/
theorem last_error_side_effect_free_witness :
    (SpecCore.last_error (SpecCore.recordOutcome sampleSession (-7))).1 = -7 :=
  (last_error_side_effect_free sampleSession).2.2.2 (-7) (by decide)

/-- C7: disconnect moves a Ready, Authenticating, or KeyExchange session to
Disconnected, succeeds unchanged on an already Disconnected session, and is
idempotent: a second disconnect after any successful disconnect succeeds and
leaves the session unchanged. -/
theorem disconnect_idempotent (s : SpecCore.Session) :
    (s.state = SpecCore.HandshakeState.ready ∨
     s.state = SpecCore.HandshakeState.authenticating ∨
     s.state = SpecCore.HandshakeState.keyExchange →
      SpecCore.disconnect s =
        Except.ok { s with state := SpecCore.HandshakeState.disconnected }) ∧
    (s.state = SpecCore.HandshakeState.disconnected →
      SpecCore.disconnect s = Except.ok s) ∧
    ∀ s2, SpecCore.disconnect s = Except.ok s2 →
      SpecCore.disconnect s2 = Except.ok s2 := by
  rcases s with ⟨st, le, bd, t, kw, ki⟩
  cases st <;> simp [SpecCore.disconnect]

/-- C7 witness: disconnecting a concrete Ready session yields the Disconnected
session, and disconnecting that already Disconnected session succeeds and
leaves it unchanged. -/
theorem disconnect_idempotent_witness :
    SpecCore.disconnect sampleSession = Except.ok sampleDisconnectedSession ∧
    SpecCore.disconnect sampleDisconnectedSession = Except.ok sampleDisconnectedSession :=
  ⟨(disconnect_idempotent sampleSession).1 (Or.inl rfl),
   (disconnect_idempotent sampleDisconnectedSession).2.1 rfl⟩

/-- C8: once readdir returns EndOfDirectory on a directory handle, every
subsequent readdir call on that same handle returns EndOfDirectory with the
handle unchanged — in particular never an error. -/
theorem readdir_sticky_eof (h : SpecCore.SftpHandle)
    (heof : (SpecCore.readdir h).1 = SpecCore.ReaddirResult.endOfDirectory) :
    ∀ n : Nat, SpecCore.readdirIter h n = (SpecCore.ReaddirResult.endOfDirectory, h) := by
  have hfix : SpecCore.readdir h = (SpecCore.ReaddirResult.endOfDirectory, h) := by
    rcases h with ⟨ht, op, es⟩
    cases op <;> cases ht <;> cases es <;> simp_all [SpecCore.readdir]
  intro n
  induction n with
  | zero => simpa [SpecCore.readdirIter] using hfix
  | succ n ih => simp [SpecCore.readdirIter, ih, hfix]

/-- C8 witness: on a concrete exhausted open directory handle, the third
consecutive readdir call still returns EndOfDirectory with the handle
unchanged. -/
theorem readdir_sticky_eof_witness :
    SpecCore.readdirIter sampleDirHandle 2 =
      (SpecCore.ReaddirResult.endOfDirectory, sampleDirHandle) :=
  readdir_sticky_eof sampleDirHandle rfl 2

/-- C9: configure_timeout and configure_keepalive are purely administrative:
for every session and argument values they leave the handshake state
unchanged. -/
theorem administrative_ops_preserve_state (s : SpecCore.Session) (duration : Int)
    (wantReply : Bool) (interval : Nat) :
    (SpecCore.configure_timeout s duration).state = s.state ∧
    (SpecCore.configure_keepalive s wantReply interval).state = s.state :=
  ⟨rfl, rfl⟩

/-- C10: for every non-NULL username and password, the lengths
ssh2_userauth_password forwards to the underlying library are
strlen(username) mod 2 ^ 32 and strlen(password) mod 2 ^ 32, and for strings
of at most 2 ^ 32 - 1 bytes these equal the exact strlen values. -/
theorem userauth_password_length_narrowing (lib : Shim.LibCall → Int)
    (username password : List Nat) :
    (Shim.ssh2_userauth_password lib (Option.some username) (Option.some password)).2 =
      [Shim.LibCall.passwordEx username (Shim.strlen username % 2 ^ 32)
        password (Shim.strlen password % 2 ^ 32) Option.none] ∧
    (Shim.strlen username ≤ 2 ^ 32 - 1 →
      Shim.strlen username % 2 ^ 32 = Shim.strlen username) ∧
    (Shim.strlen password ≤ 2 ^ 32 - 1 →
      Shim.strlen password % 2 ^ 32 = Shim.strlen password) := by
  have h32 : (2 : Nat) ^ 32 = 4294967296 := by norm_num
  refine ⟨rfl, fun hu => ?_, fun hp => ?_⟩
  · rw [h32] at hu ⊢
    omega
  · rw [h32] at hp ⊢
    omega

/-- C10 witness: on the concrete two-byte username and password, the forwarded
lengths are the mod-reduced strlen values, and those equal the exact lengths. -/
theorem userauth_password_length_narrowing_witness :
    (Shim.ssh2_userauth_password (fun _ => 0) (Option.some [104, 105])
        (Option.some [112, 119])).2 =
      [Shim.LibCall.passwordEx [104, 105] (Shim.strlen [104, 105] % 2 ^ 32)
        [112, 119] (Shim.strlen [112, 119] % 2 ^ 32) Option.none] ∧
    Shim.strlen [104, 105] % 2 ^ 32 = Shim.strlen [104, 105] ∧
    Shim.strlen [112, 119] % 2 ^ 32 = Shim.strlen [112, 119] :=
  ⟨(userauth_password_length_narrowing (fun _ => 0) [104, 105] [112, 119]).1,
   (userauth_password_length_narrowing (fun _ => 0) [104, 105] [112, 119]).2.1
     (by norm_num [Shim.strlen]),
   (userauth_password_length_narrowing (fun _ => 0) [104, 105] [112, 119]).2.2
     (by norm_num [Shim.strlen])⟩
